import Mathlib

/-!
Verification of the reaction-ledger core of the Chemical Reaction Simulator
(`src/app.py`, class `ChemicalReactionSimulator`).

The embedding models Python numbers as rationals (`ℚ`), so the arithmetic
formulas are captured exactly; `round(x, 2)` is modelled as round-half-to-even
at two decimal places, Python's rounding mode. The simulator state consists of
the append-only `reactions` list and the derived `reaction_df` table, exactly
as in the source class.
-/

/-- One entry of the `self.reactions` list: the dict built by `add_reaction`
with keys Reactants, Products, Temperature, Pressure, Catalyst. -/
structure Reaction where
  reactants : String
  products : String
  temperature : ℚ
  pressure : ℚ
  catalyst : String
  deriving Repr, DecidableEq

/-- One row of the derived `reaction_df` table: the five stored columns plus
the two derived columns "Reaction Rate (mol/s)" and "Yield (%)". -/
structure Row where
  reactants : String
  products : String
  temperature : ℚ
  pressure : ℚ
  catalyst : String
  rate : ℚ
  yield_percent : ℚ
  deriving Repr, DecidableEq

/-- The state of a `ChemicalReactionSimulator` instance: the `reactions`
list and the derived `reaction_df` table. -/
structure ChemicalReactionSimulator where
  reactions : List Reaction
  reaction_df : List Row
  deriving Repr, DecidableEq

/-- `__init__`: empty reactions list, empty dataframe. -/
def initSimulator : ChemicalReactionSimulator :=
  { reactions := [], reaction_df := [] }

/-- `predict_products`: exact-match lookup in the five-entry `rules` dict,
defaulting to "Unknown" (`rules.get(reactants, "Unknown")`). -/
def predict_products (reactants : String) : String :=
  if reactants = "H2 + O2" then "H2O"
  else if reactants = "N2 + H2" then "NH3"
  else if reactants = "C + O2" then "CO2"
  else if reactants = "Na + Cl2" then "NaCl"
  else if reactants = "Fe + O2" then "Fe2O3"
  else "Unknown"

/-- `add_reaction`: predicts the product, normalizes a falsy (empty) catalyst
string to "None" (`catalyst if catalyst else "None"`), and appends the record
to `self.reactions`. `reaction_df` is not touched. -/
def add_reaction (sim : ChemicalReactionSimulator) (reactants : String)
    (temperature pressure : ℚ) (catalyst : String) : ChemicalReactionSimulator :=
  let products := predict_products reactants
  let catalyst := if catalyst = "" then "None" else catalyst
  { sim with
      reactions := sim.reactions ++
        [{ reactants := reactants, products := products,
           temperature := temperature, pressure := pressure,
           catalyst := catalyst }] }

/-- Round a rational to the nearest integer, ties to even: the rounding mode
of Python's built-in `round`. -/
def roundHalfEven (q : ℚ) : ℤ :=
  let f := ⌊q⌋
  let frac := q - f
  if frac < 1/2 then f
  else if 1/2 < frac then f + 1
  else if f % 2 = 0 then f else f + 1

/-- Python's `round(x, 2)`: round half to even at two decimal places. -/
def round2 (q : ℚ) : ℚ :=
  (roundHalfEven (q * 100) : ℚ) / 100

/-- The body of the `for reaction in self.reactions` loop of
`simulate_reactions`: compute `has_catalyst`, `rate` and `yield_percent` for
one stored record and emit the full table row. -/
def simulateRow (r : Reaction) : Row :=
  let has_catalyst := r.catalyst ≠ "None"
  let rate := round2 ((r.temperature * 0.05 + r.pressure * 0.3) *
    (if has_catalyst then 1.2 else 1.0))
  let yield_percent := round2 (min 100
    (r.temperature * 0.2 + r.pressure * 1.5 + (if has_catalyst then 10 else 0)))
  { reactants := r.reactants, products := r.products,
    temperature := r.temperature, pressure := r.pressure,
    catalyst := r.catalyst, rate := rate, yield_percent := yield_percent }

/-- `simulate_reactions`: rebuild `self.reaction_df` from `self.reactions`,
one row per stored record in order. -/
def simulate_reactions (sim : ChemicalReactionSimulator) : ChemicalReactionSimulator :=
  { sim with reaction_df := sim.reactions.map simulateRow }

/-- The four raw fields of one `add_reaction` call, as supplied by the
presentation layer. -/
structure AddInput where
  reactants : String
  temperature : ℚ
  pressure : ℚ
  catalyst : String
  deriving Repr, DecidableEq

/-- The stored record that `add_reaction` builds from one input. -/
def recordOf (inp : AddInput) : Reaction :=
  { reactants := inp.reactants, products := predict_products inp.reactants,
    temperature := inp.temperature, pressure := inp.pressure,
    catalyst := if inp.catalyst = "" then "None" else inp.catalyst }

/-- Run a sequence of `add_reaction` calls against a fresh simulator. -/
def runAdds (inputs : List AddInput) : ChemicalReactionSimulator :=
  inputs.foldl
    (fun sim inp => add_reaction sim inp.reactants inp.temperature inp.pressure inp.catalyst)
    initSimulator

/-- The simulator state after the fixed scenario
`add_reaction("Na + Cl2", 300, 5, "Pt")` followed by `simulate_reactions`. -/
def naClSim : ChemicalReactionSimulator :=
  simulate_reactions (add_reaction initSimulator "Na + Cl2" 300 5 "Pt")

/-- The simulator state after `add_reaction("H2 + O2", -100, 0, "")` followed
by `simulate_reactions`: a valid sub-zero-Celsius input. -/
def coldSim : ChemicalReactionSimulator :=
  simulate_reactions (add_reaction initSimulator "H2 + O2" (-100) 0 "")

/-- A one-record state used to witness the per-row formula theorems. -/
def simOne : ChemicalReactionSimulator :=
  add_reaction initSimulator "H2 + O2" 100 2 ""

/-- Two identical inputs, to witness that duplicates are kept as
separate entries. -/
def dupInputs : List AddInput :=
  [{ reactants := "H2 + O2", temperature := 100, pressure := 2, catalyst := "" },
   { reactants := "H2 + O2", temperature := 100, pressure := 2, catalyst := "" }]

/-- The record `add_reaction` stores when no (or an empty) catalyst is
supplied: catalyst is the sentinel "None". -/
def sentinelRecord (r : String) (t p : ℚ) : Reaction :=
  { reactants := r, products := predict_products r,
    temperature := t, pressure := p, catalyst := "None" }

/- ## Helper lemmas -/

/-- Rounding never overshoots an integer bound: if `q ≤ n` then the
half-to-even rounding of `q` is at most `n`. -/
theorem roundHalfEven_le (q : ℚ) (n : ℤ) (h : q ≤ n) : roundHalfEven q ≤ n := by
  have hf : ⌊q⌋ ≤ n := by
    have := Int.floor_mono h
    simpa using this
  have hfq : (⌊q⌋ : ℚ) ≤ q := Int.floor_le q
  simp only [roundHalfEven]
  split_ifs with h1 h2 h3
  · exact hf
  · have hlt : (⌊q⌋ : ℚ) < (n : ℚ) := by
      have : (1 : ℚ)/2 ≤ q - ⌊q⌋ := le_of_lt h2
      have hq : q ≤ (n : ℚ) := h
      linarith
    have : ⌊q⌋ < n := by exact_mod_cast hlt
    omega
  · exact hf
  · have h1' : (1 : ℚ)/2 ≤ q - ⌊q⌋ := le_of_not_lt h1
    have hlt : (⌊q⌋ : ℚ) < (n : ℚ) := by
      have hq : q ≤ (n : ℚ) := h
      linarith
    have : ⌊q⌋ < n := by exact_mod_cast hlt
    omega

/-- `round2` never overshoots 100 on inputs at most 100. -/
theorem round2_le_100 (q : ℚ) (hq : q ≤ 100) : round2 q ≤ 100 := by
  unfold round2
  rw [div_le_iff₀ (by norm_num : (0:ℚ) < 100)]
  have h : q * 100 ≤ ((10000 : ℤ) : ℚ) := by push_cast; linarith
  have := roundHalfEven_le (q * 100) 10000 h
  calc ((roundHalfEven (q * 100) : ℤ) : ℚ) ≤ ((10000 : ℤ) : ℚ) := by exact_mod_cast this
    _ = 100 * 100 := by norm_num

/-- Folding `add_reaction` over a list of inputs appends the corresponding
records, in order. -/
theorem runAdds_reactions_aux (l : List AddInput) (sim : ChemicalReactionSimulator) :
    (l.foldl
      (fun s inp => add_reaction s inp.reactants inp.temperature inp.pressure inp.catalyst)
      sim).reactions = sim.reactions ++ l.map recordOf := by
  induction l generalizing sim with
  | nil => simp
  | cons a l ih =>
    simp only [List.foldl_cons, List.map_cons]
    rw [ih]
    simp [add_reaction, recordOf]

/-- The records of `runAdds inputs` are exactly the per-input records. -/
theorem runAdds_reactions (inputs : List AddInput) :
    (runAdds inputs).reactions = inputs.map recordOf := by
  simpa [initSimulator] using runAdds_reactions_aux inputs initSimulator

/- ## Claim theorems -/

/-- Claim C1: for every stored reaction record, the derived rate in the
rebuilt table equals `(temperature * 0.05 + pressure * 0.3)` multiplied by
1.2 when the stored catalyst differs from "None" and by 1.0 otherwise,
rounded to 2 decimal places. -/
theorem reaction_rate_formula (sim : ChemicalReactionSimulator) (i : ℕ)
    (h : i < sim.reactions.length)
    (h2 : i < (simulate_reactions sim).reaction_df.length) :
    ((simulate_reactions sim).reaction_df.get ⟨i, h2⟩).rate
      = round2 (((sim.reactions.get ⟨i, h⟩).temperature * 0.05
            + (sim.reactions.get ⟨i, h⟩).pressure * 0.3)
          * (if (sim.reactions.get ⟨i, h⟩).catalyst ≠ "None" then 1.2 else 1.0)) := by
  simp [simulate_reactions, simulateRow, List.get_eq_getElem, List.getElem_map]

/-- Witness for C1: in the one-record state `simOne` the hypotheses hold at
index 0 and the rate of row 0 follows the formula. -/
theorem reaction_rate_formula_witness :
    0 < simOne.reactions.length ∧
    0 < (simulate_reactions simOne).reaction_df.length ∧
    ((simulate_reactions simOne).reaction_df.get ⟨0, by decide⟩).rate
      = round2 (((simOne.reactions.get ⟨0, by decide⟩).temperature * 0.05
            + (simOne.reactions.get ⟨0, by decide⟩).pressure * 0.3)
          * (if (simOne.reactions.get ⟨0, by decide⟩).catalyst ≠ "None" then 1.2 else 1.0)) :=
  ⟨by decide, by decide, reaction_rate_formula simOne 0 (by decide) (by decide)⟩

/-- Claim C2: for every stored reaction record, the derived yield in the
rebuilt table equals `min 100 (temperature * 0.2 + pressure * 1.5 + bonus)`
with bonus 10 exactly when the stored catalyst differs from "None", the
minimum taken before rounding to 2 decimal places. -/
theorem yield_percent_formula (sim : ChemicalReactionSimulator) (i : ℕ)
    (h : i < sim.reactions.length)
    (h2 : i < (simulate_reactions sim).reaction_df.length) :
    ((simulate_reactions sim).reaction_df.get ⟨i, h2⟩).yield_percent
      = round2 (min 100 ((sim.reactions.get ⟨i, h⟩).temperature * 0.2
            + (sim.reactions.get ⟨i, h⟩).pressure * 1.5
            + (if (sim.reactions.get ⟨i, h⟩).catalyst ≠ "None" then 10 else 0))) := by
  simp [simulate_reactions, simulateRow, List.get_eq_getElem, List.getElem_map]

/-- Witness for C2: in the one-record state `simOne` the hypotheses hold at
index 0 and the yield of row 0 follows the formula. -/
theorem yield_percent_formula_witness :
    0 < simOne.reactions.length ∧
    0 < (simulate_reactions simOne).reaction_df.length ∧
    ((simulate_reactions simOne).reaction_df.get ⟨0, by decide⟩).yield_percent
      = round2 (min 100 ((simOne.reactions.get ⟨0, by decide⟩).temperature * 0.2
            + (simOne.reactions.get ⟨0, by decide⟩).pressure * 1.5
            + (if (simOne.reactions.get ⟨0, by decide⟩).catalyst ≠ "None" then 10 else 0))) :=
  ⟨by decide, by decide, yield_percent_formula simOne 0 (by decide) (by decide)⟩

/-- Claim C3: `predict_products` is total on strings: each of the 5 known
reactant-pair strings maps to its exact product, and every other string
(exact match only) maps to "Unknown". -/
theorem predict_products_total_lookup (s : String) :
    predict_products "H2 + O2" = "H2O" ∧
    predict_products "N2 + H2" = "NH3" ∧
    predict_products "C + O2" = "CO2" ∧
    predict_products "Na + Cl2" = "NaCl" ∧
    predict_products "Fe + O2" = "Fe2O3" ∧
    (s ∉ (["H2 + O2", "N2 + H2", "C + O2", "Na + Cl2", "Fe + O2"] : List String) →
      predict_products s = "Unknown") := by
  refine ⟨by decide, by decide, by decide, by decide, by decide, ?_⟩
  intro hs
  simp only [List.mem_cons, List.not_mem_nil, or_false, not_or] at hs
  obtain ⟨h1, h2, h3, h4, h5⟩ := hs
  simp [predict_products, h1, h2, h3, h4, h5]

/-- Witness for C3: "h2 + o2" (lower case) is not a known key, so the lookup
falls through to "Unknown" — no case folding. -/
theorem predict_products_total_lookup_witness :
    "h2 + o2" ∉ (["H2 + O2", "N2 + H2", "C + O2", "Na + Cl2", "Fe + O2"] : List String) ∧
    predict_products "h2 + o2" = "Unknown" :=
  ⟨by decide, (predict_products_total_lookup "h2 + o2").2.2.2.2.2 (by decide)⟩

/-- Claim C4: for every reaction record, regardless of the magnitude of
temperature, pressure and catalyst, the derived yield is at most 100. -/
theorem yield_percent_le_100 (r : Reaction) : (simulateRow r).yield_percent ≤ 100 := by
  simp only [simulateRow]
  exact round2_le_100 _ (min_le_left _ _)

/-- Claim C6: running any sequence of `add_reaction` calls (duplicates
allowed) and deriving yields a table with exactly one row per call, in
insertion order: row `i` is exactly the derivation of the record built from
input `i`. -/
theorem table_preserves_insertion_order (inputs : List AddInput) :
    (simulate_reactions (runAdds inputs)).reaction_df.length = inputs.length ∧
    ∀ (i : ℕ) (h : i < inputs.length)
      (h2 : i < (simulate_reactions (runAdds inputs)).reaction_df.length),
      (simulate_reactions (runAdds inputs)).reaction_df.get ⟨i, h2⟩
        = simulateRow (recordOf (inputs.get ⟨i, h⟩)) := by
  have hr : (runAdds inputs).reactions = inputs.map recordOf := runAdds_reactions inputs
  constructor
  · simp [simulate_reactions, hr]
  · intro i h h2
    simp [simulate_reactions, hr, List.get_eq_getElem, List.getElem_map]

/-- Witness for C6: two identical inputs give a two-row table whose second
row is the derivation of the second (duplicate) input. -/
theorem table_preserves_insertion_order_witness :
    1 < dupInputs.length ∧
    1 < (simulate_reactions (runAdds dupInputs)).reaction_df.length ∧
    (simulate_reactions (runAdds dupInputs)).reaction_df.length = dupInputs.length ∧
    (simulate_reactions (runAdds dupInputs)).reaction_df.get ⟨1, by decide⟩
      = simulateRow (recordOf (dupInputs.get ⟨1, by decide⟩)) :=
  ⟨by decide, by decide, (table_preserves_insertion_order dupInputs).1,
    (table_preserves_insertion_order dupInputs).2 1 (by decide) (by decide)⟩

/-- Counterexample to claim C5 as stated: in the scenario
`add_reaction("Na + Cl2", 300, 5, "Pt")` the single derived yield is not
100.0 — `300*0.2 + 5*1.5 + 10 = 77.5`, which is below the clamp. -/
theorem naCl_yield_not_clamped :
    naClSim.reaction_df.map Row.yield_percent ≠ [100] := by
  simp +decide [naClSim, simulate_reactions, add_reaction, initSimulator, simulateRow,
    predict_products, round2, roundHalfEven]
  norm_num [Int.fract]

/-- Claim C5 amended: the scenario `add_reaction("Na + Cl2", 300, 5, "Pt")`
produces one record with product "NaCl", rate
`round((300*0.05 + 5*0.3)*1.2, 2) = 19.8`, and yield
`round(min(100, 300*0.2 + 5*1.5 + 10), 2) = 77.5` (the clamp does not
engage). -/
theorem naCl_scenario_amended :
    naClSim.reaction_df.map Row.products = ["NaCl"] ∧
    naClSim.reaction_df.map Row.rate = [19.8] ∧
    naClSim.reaction_df.map Row.yield_percent = [77.5] := by
  refine ⟨?_, ?_, ?_⟩ <;>
    simp +decide [naClSim, simulate_reactions, add_reaction, initSimulator, simulateRow,
      predict_products, round2, roundHalfEven] <;>
    norm_num [Int.fract]

/-- Claim C7: an empty catalyst argument is stored as the sentinel "None",
and the has-catalyst check of the derivation sees that sentinel: neither the
1.2 multiplier nor the +10 bonus applies to such a record. -/
theorem empty_catalyst_normalized (sim : ChemicalReactionSimulator) (r : String) (t p : ℚ) :
    add_reaction sim r t p "" =
      { sim with reactions := sim.reactions ++ [sentinelRecord r t p] } ∧
    (sentinelRecord r t p).catalyst = "None" ∧
    (simulateRow (sentinelRecord r t p)).rate
      = round2 ((t * 0.05 + p * 0.3) * 1.0) ∧
    (simulateRow (sentinelRecord r t p)).yield_percent
      = round2 (min 100 (t * 0.2 + p * 1.5 + 0)) := by
  refine ⟨?_, rfl, ?_, ?_⟩
  · simp [add_reaction, sentinelRecord]
  · simp [simulateRow, sentinelRecord]
  · simp [simulateRow, sentinelRecord]

/-- Claim C8: supplying the literal string "None" as catalyst is
indistinguishable from supplying no catalyst: the resulting states are
equal, and the record's derivation applies neither the 1.2 multiplier nor
the +10 bonus. -/
theorem literal_none_catalyst_indistinguishable (sim : ChemicalReactionSimulator)
    (r : String) (t p : ℚ) :
    add_reaction sim r t p "None" = add_reaction sim r t p "" ∧
    (simulateRow (sentinelRecord r t p)).rate
      = round2 ((t * 0.05 + p * 0.3) * 1.0) ∧
    (simulateRow (sentinelRecord r t p)).yield_percent
      = round2 (min 100 (t * 0.2 + p * 1.5 + 0)) := by
  refine ⟨?_, ?_, ?_⟩
  · simp [add_reaction]
  · simp [simulateRow, sentinelRecord]
  · simp [simulateRow, sentinelRecord]

/-- Claim C9: no lower clamp: the valid input temperature -100 ≥ -273.15,
pressure 0 ≥ 0, no catalyst yields a record whose derived rate (-5) and
derived yield (-20) are both strictly negative. -/
theorem no_lower_clamp_negative_metrics :
    (-273.15 : ℚ) ≤ -100 ∧ (0 : ℚ) ≤ 0 ∧
    coldSim.reaction_df.map Row.rate = [-5] ∧
    coldSim.reaction_df.map Row.yield_percent = [-20] ∧
    ((-5 : ℚ) < 0) ∧ ((-20 : ℚ) < 0) := by
  refine ⟨by norm_num, le_refl 0, ?_, ?_, by norm_num, by norm_num⟩ <;>
    simp +decide [coldSim, simulate_reactions, add_reaction, initSimulator, simulateRow,
      predict_products, round2, roundHalfEven] <;>
    norm_num [Int.fract]

/-- Claim C10: `add_reaction` leaves the derived table untouched, and
`simulate_reactions` leaves the record list untouched and rebuilds the table
entirely from the record list. -/
theorem add_reaction_frame_effect (sim : ChemicalReactionSimulator) (r : String)
    (t p : ℚ) (c : String) :
    (add_reaction sim r t p c).reaction_df = sim.reaction_df ∧
    (simulate_reactions sim).reactions = sim.reactions ∧
    (simulate_reactions sim).reaction_df = sim.reactions.map simulateRow :=
  ⟨rfl, rfl, rfl⟩
